import Mathlib

/-!
Verification development for the Synchro-nice audio streaming backend
(`server/audio_processor.py`, `server/main.py`, `server/models/models.py`,
`server/services/audio_analyzer.py`).

Python floats are embedded as exact rationals (`ℚ`); machine floats only
enter through library calls whose outputs are already abstracted (see
`SciNum`).  Stateful code (the analyzer, the producer task, the queues) is
embedded as explicit state passing over Lean structures; queues are lists
read at the head and appended at the tail.
-/

namespace SynchroNice

/-! ## Numeric helpers (numpy / python semantics over ℚ) -/

/-- `np.clip x lo hi`. -/
def npClip (x lo hi : ℚ) : ℚ := min (max x lo) hi

/-- Python `max(l)` for a list (0 on the empty list, which the sources never hit). -/
def maxQ : List ℚ → ℚ
  | [] => 0
  | h :: t => t.foldl max h

/-- Python `min(l)` for a list (0 on the empty list). -/
def minQ : List ℚ → ℚ
  | [] => 0
  | h :: t => t.foldl min h

/-- `np.mean l` (ℚ division by 0 yields 0 for the empty list). -/
def meanQ (l : List ℚ) : ℚ := l.sum / (l.length : ℚ)

/-- `np.var l` (population variance, as numpy computes by default). -/
def varQ (l : List ℚ) : ℚ :=
  (l.map (fun x => (x - meanQ l) ^ 2)).sum / (l.length : ℚ)

/-- Consecutive differences, `np.diff` over ℚ. -/
def diffsQ (l : List ℚ) : List ℚ := (l.zip l.tail).map (fun p => p.2 - p.1)

/-- Python `l[-n:]`. -/
def lastN {α : Type} (l : List α) (n : ℕ) : List α := l.drop (l.length - n)

/-- `np.arange n` as rationals (the regression abscissa used by the analyzer). -/
def arange (n : ℕ) : List ℚ := (List.range n).map (fun i => (i : ℚ))

/-- Slope of `scipy.stats.linregress x y`: the exact least-squares closed form
`(n·Σxy − Σx·Σy) / (n·Σx² − (Σx)²)`. -/
def linregressSlope (x y : List ℚ) : ℚ :=
  let n : ℚ := (x.length : ℚ)
  let sx := x.sum
  let sy := y.sum
  let sxy := ((x.zip y).map (fun p => p.1 * p.2)).sum
  let sxx := (x.map (fun v => v * v)).sum
  (n * sxy - sx * sy) / (n * sxx - sx * sx)

/-- Intercept of `scipy.stats.linregress x y` (`ȳ − slope·x̄`). -/
def linregressIntercept (x y : List ℚ) : ℚ :=
  (y.sum - linregressSlope x y * x.sum) / (x.length : ℚ)

/-- Library calls whose exact values are irrational (square roots) or
algorithmically external (scipy peak finding); the code under verification
only pipes their results through, so they are abstracted as parameters.
`find_peaks series height` stands for
`scipy.signal.find_peaks(series, height=height, distance=2)[0]`;
`rvalue x y` for the correlation coefficient of `scipy.stats.linregress`;
`std l` for `np.std l`. -/
structure SciNum where
  find_peaks : List ℚ → ℚ → List ℕ
  rvalue : List ℚ → List ℚ → ℚ
  std : List ℚ → ℚ

/-! ## Data model (`models/models.py`) -/

/-- `AudioChunkData` (models.py lines 5-18): the per-window feature record.
All twelve fields are required (pydantic, no defaults). -/
structure AudioChunkData where
  timestamp : ℚ
  frequencies : List ℚ
  amplitude : ℚ
  brightness : ℚ
  energy_center : ℚ
  is_percussive : Bool
  rolloff : ℚ
  zero_crossing_rate : ℚ
  spectral_flatness : ℚ
  chroma_features : List ℚ
  beat_strength : ℚ
  tempo : ℚ
  deriving DecidableEq, Repr

/-- `TransitionAnalysis`. -/
structure TransitionAnalysis where
  amplitude_delta : ℚ
  brightness_delta : ℚ
  beat_strength_delta : ℚ
  frequency_deltas : List ℚ
  transition_smoothness : ℚ
  change_velocity : ℚ
  energy_direction : String
  deriving DecidableEq, Repr

/-- `TrendAnalysis`. -/
structure TrendAnalysis where
  amplitude_trend : ℚ
  brightness_trend : ℚ
  beat_strength_trend : ℚ
  frequency_trends : List ℚ
  overall_energy_trend : ℚ
  trend_strength : ℚ
  volatility : ℚ
  deriving DecidableEq, Repr

/-- One entry of `detected_patterns` (a python dict with keys
`type`, `period`, `strength`, `last_occurrence`). -/
structure PatternDict where
  ptype : String
  period : ℚ
  strength : ℚ
  last_occurrence : ℚ
  deriving DecidableEq, Repr

/-- `PatternAnalysis`. -/
structure PatternAnalysis where
  detected_patterns : List PatternDict
  pattern_strength : ℚ
  cycle_length : Option ℕ
  pattern_confidence : ℚ
  deriving DecidableEq, Repr

/-- `PredictionAnalysis`. -/
structure PredictionAnalysis where
  predicted_amplitude : ℚ
  predicted_brightness : ℚ
  predicted_beat_strength : ℚ
  predicted_energy_change : String
  drop_probability : ℚ
  buildup_probability : ℚ
  break_probability : ℚ
  deriving DecidableEq, Repr

/-- `AudioRelationships`. -/
structure AudioRelationships where
  transitions : TransitionAnalysis
  trends : TrendAnalysis
  patterns : PatternAnalysis
  predictions : PredictionAnalysis
  analysis_window_size : ℕ
  buffer_size : ℕ
  deriving DecidableEq, Repr

/-- `AudioAnalysisMessage`. -/
structure AudioAnalysisMessage where
  current_chunk : AudioChunkData
  relationships : AudioRelationships
  analysis_timestamp : ℚ
  chunks_analyzed : ℕ
  deriving DecidableEq, Repr

/-- `AudioProcessingStatus`. -/
structure AudioProcessingStatus where
  status : String
  progress : ℚ
  total_chunks : ℕ
  processed_chunks : ℕ
  duration : ℚ
  deriving DecidableEq, Repr

/-- `AudioFileInfo`. -/
structure AudioFileInfo where
  filename : String
  duration : ℚ
  sample_rate : ℕ
  channels : ℕ
  file_path : String
  deriving DecidableEq, Repr

/-! ## Claim C1: the field set of the `AudioChunkData(...)` call in
`AudioProcessor._analyze_chunk` (audio_processor.py lines 84-93) versus the
fields the pydantic model requires (models.py lines 5-18). -/

/-- The required (default-free) fields of the pydantic model `AudioChunkData`,
in declaration order (models.py lines 7-18). -/
def audioChunkDataRequiredFields : List String :=
  ["timestamp", "frequencies", "amplitude", "brightness", "energy_center",
   "is_percussive", "rolloff", "zero_crossing_rate",
   "spectral_flatness", "chroma_features", "beat_strength", "tempo"]

/-- The keyword arguments `_analyze_chunk` actually passes to
`AudioChunkData(...)` (audio_processor.py lines 84-93). -/
def analyzeChunkKwargNames : List String :=
  ["timestamp", "frequencies", "amplitude", "brightness", "energy_center",
   "is_percussive", "rolloff", "zero_crossing_rate"]

/-- Pydantic validation of a constructor call: it succeeds iff every
required field is among the provided keyword arguments. -/
def pydanticConstructOk (required provided : List String) : Bool :=
  required.all (fun f => provided.contains f)

/-! ## Relational analysis engine (`services/audio_analyzer.py`) -/

/-- A record with every field zero; stands in for Python expressions such as
`chunks[0]` / `chunks[-1]` in branches the guards make unreachable. -/
def defaultChunk : AudioChunkData :=
  ⟨0, [], 0, 0, 0, false, 0, 0, 0, [], 0, 0⟩

/-- `AudioAnalyzer.__init__` state: the unbounded `full_buffer` and the
`deque(maxlen=analysis_window_size)` `window_buffer`. -/
structure AudioAnalyzer where
  analysis_window_size : ℕ
  full_buffer : List AudioChunkData
  window_buffer : List AudioChunkData
  deriving DecidableEq, Repr

/-- `AudioAnalyzer.add_chunk`: append to both buffers; the deque drops the
oldest element when full. -/
def add_chunk (a : AudioAnalyzer) (c : AudioChunkData) : AudioAnalyzer :=
  { a with
    full_buffer := a.full_buffer ++ [c]
    window_buffer := lastN (a.window_buffer ++ [c]) a.analysis_window_size }

/-- `AudioAnalyzer._calculate_trend`: normalized least-squares slope
`clip(slope · len(x) / (max y − min y), −1, 1)`, 0 when fewer than two points
or when the value range is 0. -/
def calculate_trend (x y : List ℚ) : ℚ :=
  if y.length < 2 then 0
  else
    let slope := linregressSlope x y
    let y_range := maxQ y - minQ y
    if y_range = 0 then 0
    else npClip (slope * (x.length : ℚ) / y_range) (-1) 1

/-- `AudioAnalyzer._calculate_transition_smoothness`:
`clip(1 / (1 + 10·var(|Δamplitude|)), 0, 1)`, 1 with fewer than two records. -/
def calculate_transition_smoothness (chunks : List AudioChunkData) : ℚ :=
  if chunks.length < 2 then 1
  else
    let changes := (diffsQ (chunks.map (·.amplitude))).map (fun d => |d|)
    if changes = [] then 1
    else npClip (1 / (1 + varQ changes * 10)) 0 1

/-- `AudioAnalyzer._calculate_change_velocity`: mean absolute second
difference of amplitude, 0 with fewer than three records. -/
def calculate_change_velocity (chunks : List AudioChunkData) : ℚ :=
  if chunks.length < 3 then 0
  else
    let velocities := (diffsQ (diffsQ (chunks.map (·.amplitude)))).map (fun d => |d|)
    if velocities = [] then 0 else meanQ velocities

/-- `AudioAnalyzer._determine_energy_direction`. -/
def determine_energy_direction (chunks : List AudioChunkData) : String :=
  if chunks.length < 2 then "stable"
  else
    let recent_trend :=
      (chunks.getLastD defaultChunk).amplitude - (chunks.headD defaultChunk).amplitude
    if recent_trend > 5 / 100 then "increasing"
    else if recent_trend < -(5 / 100) then "decreasing"
    else "stable"

/-- `AudioAnalyzer._calculate_overall_energy_trend`: trend of the per-record
mean of amplitude, brightness and beat strength. -/
def calculate_overall_energy_trend (chunks : List AudioChunkData) : ℚ :=
  if chunks.length < 2 then 0
  else
    let energy_scores :=
      chunks.map (fun c => (c.amplitude + c.brightness + c.beat_strength) / 3)
    calculate_trend (arange energy_scores.length) energy_scores

/-- `AudioAnalyzer._calculate_trend_strength`: `|r|` of the amplitude
regression (the code maps a NaN `r` to 0; over ℚ the abstracted `rvalue`
is already total). -/
def calculate_trend_strength (sp : SciNum) (chunks : List AudioChunkData) : ℚ :=
  if chunks.length < 3 then 0
  else |sp.rvalue (arange chunks.length) (chunks.map (·.amplitude))|

/-- `AudioAnalyzer._calculate_volatility`: `np.std` of the amplitudes. -/
def calculate_volatility (sp : SciNum) (chunks : List AudioChunkData) : ℚ :=
  if chunks.length < 2 then 0
  else sp.std (chunks.map (·.amplitude))

/-- `AudioAnalyzer._extrapolate_trend`: one-step linear extrapolation,
clamped to [0,1]. -/
def extrapolate_trend (values : List ℚ) : ℚ :=
  if values.length < 2 then values.headD 0
  else
    let x := arange values.length
    let slope := linregressSlope x values
    let intercept := linregressIntercept x values
    npClip (slope * (values.length : ℚ) + intercept) 0 1

/-- `AudioAnalyzer._predict_energy_change`. -/
def predict_energy_change (chunks : List AudioChunkData) : String :=
  if chunks.length < 5 then "stable"
  else
    let recent_trend := calculate_overall_energy_trend (lastN chunks 5)
    let current_energy := (chunks.getLastD defaultChunk).amplitude
    if recent_trend > 3 / 10 ∧ current_energy > 7 / 10 then "drop"
    else if recent_trend > 1 / 10 then "buildup"
    else if recent_trend < -(2 / 10) then "breakdown"
    else "stable"

/-- `AudioAnalyzer._calculate_drop_probability`: indicator contributions
0.3 / 0.3 / 0.4 accumulated then clipped to [0,1]. -/
def calculate_drop_probability (chunks : List AudioChunkData) : ℚ :=
  if chunks.length < 5 then 0
  else
    let recent := lastN chunks 3
    let avg_amplitude := meanQ (recent.map (·.amplitude))
    let avg_beat := meanQ (recent.map (·.beat_strength))
    let trend := calculate_overall_energy_trend chunks
    let p0 : ℚ := 0
    let p1 := if avg_amplitude > 7 / 10 then p0 + 3 / 10 else p0
    let p2 := if avg_beat > 6 / 10 then p1 + 3 / 10 else p1
    let p3 := if trend > 2 / 10 then p2 + 4 / 10 else p2
    npClip p3 0 1

/-- `AudioAnalyzer._calculate_buildup_probability`. -/
def calculate_buildup_probability (chunks : List AudioChunkData) : ℚ :=
  if chunks.length < 3 then 0
  else npClip (calculate_overall_energy_trend chunks) 0 1

/-- `AudioAnalyzer._calculate_break_probability`. -/
def calculate_break_probability (chunks : List AudioChunkData) : ℚ :=
  if chunks.length < 3 then 0
  else
    let recent_amplitude := (chunks.getLastD defaultChunk).amplitude
    let trend := calculate_overall_energy_trend chunks
    if recent_amplitude < 3 / 10 ∧ trend < -(1 / 10) then npClip |trend| 0 1
    else 0

/-- `AudioAnalyzer._default_transition_analysis`. -/
def default_transition_analysis : TransitionAnalysis :=
  ⟨0, 0, 0, List.replicate 20 0, 1, 0, "stable"⟩

/-- `AudioAnalyzer._default_trend_analysis`. -/
def default_trend_analysis : TrendAnalysis :=
  ⟨0, 0, 0, List.replicate 20 0, 0, 0, 0⟩

/-- `AudioAnalyzer._default_prediction_analysis`. -/
def default_prediction_analysis : PredictionAnalysis :=
  ⟨1 / 2, 1 / 2, 1 / 2, "stable", 0, 0, 0⟩

/-- `AudioAnalyzer._analyze_transitions` over the window buffer. -/
def analyze_transitions (window : List AudioChunkData) : TransitionAnalysis :=
  if window.length < 2 then default_transition_analysis
  else
    let recent := lastN window (min 5 window.length)
    if recent.length < 2 then default_transition_analysis
    else
      let current := recent.getLastD defaultChunk
      let previous := recent.dropLast.getLastD defaultChunk
      { amplitude_delta := current.amplitude - previous.amplitude
        brightness_delta := current.brightness - previous.brightness
        beat_strength_delta := current.beat_strength - previous.beat_strength
        frequency_deltas :=
          (current.frequencies.zip previous.frequencies).map (fun p => p.1 - p.2)
        transition_smoothness := calculate_transition_smoothness recent
        change_velocity := calculate_change_velocity recent
        energy_direction := determine_energy_direction recent }

/-- `AudioAnalyzer._analyze_trends` over the window buffer
(`chunk.frequencies[i]` embedded totally via `getD`, in range for the
records the sequencer produces). -/
def analyze_trends (sp : SciNum) (window : List AudioChunkData) : TrendAnalysis :=
  if window.length < 3 then default_trend_analysis
  else
    let x := arange window.length
    let frequency_count := (window.headD defaultChunk).frequencies.length
    { amplitude_trend := calculate_trend x (window.map (·.amplitude))
      brightness_trend := calculate_trend x (window.map (·.brightness))
      beat_strength_trend := calculate_trend x (window.map (·.beat_strength))
      frequency_trends :=
        (List.range frequency_count).map
          (fun i => calculate_trend x (window.map (fun c => c.frequencies.getD i 0)))
      overall_energy_trend := calculate_overall_energy_trend window
      trend_strength := calculate_trend_strength sp window
      volatility := calculate_volatility sp window }

/-- `AudioAnalyzer._detect_cyclic_patterns` over the full buffer: empty below
16 records, else peak analysis over the amplitudes of the last 40 records.
`float(np.std(distances) < 1.0)` becomes `if sp.std distances < 1 then 1 else 0`. -/
def detect_cyclic_patterns (sp : SciNum) (full_buffer : List AudioChunkData) :
    List PatternDict :=
  if full_buffer.length < 16 then []
  else
    let amplitudes := lastN (full_buffer.map (·.amplitude)) 40
    let peaks := sp.find_peaks amplitudes (meanQ amplitudes)
    if 3 ≤ peaks.length then
      let distances := (peaks.zip peaks.tail).map (fun p => (p.2 : ℚ) - (p.1 : ℚ))
      if 1 < distances.length then
        let avg_distance := meanQ distances
        [{ ptype := "rhythmic"
           period := avg_distance * (2 / 10)
           strength := if sp.std distances < 1 then 1 else 0
           last_occurrence := ((peaks.getLastD 0 : ℕ) : ℚ) * (2 / 10) }]
      else []
    else []

/-- `AudioAnalyzer._calculate_pattern_strength`. -/
def calculate_pattern_strength (sp : SciNum) (full_buffer : List AudioChunkData) : ℚ :=
  let patterns := detect_cyclic_patterns sp full_buffer
  if patterns = [] then 0 else meanQ (patterns.map (·.strength))

/-- `AudioAnalyzer._find_dominant_cycle_length`: python `max(..., key=...)`
keeps the first maximal element; `int(period / 0.2)` truncates (period is
positive on this path, so truncation is the floor). -/
def find_dominant_cycle_length (sp : SciNum) (full_buffer : List AudioChunkData) :
    Option ℕ :=
  match detect_cyclic_patterns sp full_buffer with
  | [] => none
  | h :: t =>
    let strongest := t.foldl (fun best p => if p.strength > best.strength then p else best) h
    let period_seconds := strongest.period
    if period_seconds > 0 then some (Int.toNat ⌊period_seconds / (2 / 10)⌋) else none

/-- `AudioAnalyzer._calculate_pattern_confidence`. -/
def calculate_pattern_confidence (sp : SciNum) (full_buffer : List AudioChunkData) : ℚ :=
  let patterns := detect_cyclic_patterns sp full_buffer
  if patterns = [] then 0
  else
    let strength_sum := (patterns.map (·.strength)).sum
    let pattern_count : ℕ := patterns.length
    npClip ((strength_sum / (max pattern_count 1 : ℕ)) * min ((pattern_count : ℚ) / 3) 1) 0 1

/-- `AudioAnalyzer._analyze_patterns` over the full buffer. -/
def analyze_patterns (sp : SciNum) (full_buffer : List AudioChunkData) : PatternAnalysis :=
  if full_buffer.length < 8 then ⟨[], 0, none, 0⟩
  else
    { detected_patterns := detect_cyclic_patterns sp full_buffer
      pattern_strength := calculate_pattern_strength sp full_buffer
      cycle_length := find_dominant_cycle_length sp full_buffer
      pattern_confidence := calculate_pattern_confidence sp full_buffer }

/-- `AudioAnalyzer._make_predictions` over the window buffer. -/
def make_predictions (window : List AudioChunkData) : PredictionAnalysis :=
  if window.length < 3 then default_prediction_analysis
  else
    { predicted_amplitude := extrapolate_trend (window.map (·.amplitude))
      predicted_brightness := extrapolate_trend (window.map (·.brightness))
      predicted_beat_strength := extrapolate_trend (window.map (·.beat_strength))
      predicted_energy_change := predict_energy_change window
      drop_probability := calculate_drop_probability window
      buildup_probability := calculate_buildup_probability window
      break_probability := calculate_break_probability window }

/-- `AudioAnalyzer.analyze_relationships`: `none` with fewer than two records
in the window buffer, otherwise the composite report. -/
def analyze_relationships (sp : SciNum) (a : AudioAnalyzer) : Option AudioRelationships :=
  if a.window_buffer.length < 2 then none
  else
    some
      { transitions := analyze_transitions a.window_buffer
        trends := analyze_trends sp a.window_buffer
        patterns := analyze_patterns sp a.full_buffer
        predictions := make_predictions a.window_buffer
        analysis_window_size := a.window_buffer.length
        buffer_size := a.full_buffer.length }

/-! ## Chunk sequencer (`audio_processor.py`) -/

/-- `int(chunk_duration * sample_rate)`: python `int()` truncates toward
zero; both factors are non-negative, so this is the floor. -/
def chunkSamplesOf (chunk_duration : ℚ) (sample_rate : ℕ) : ℕ :=
  Int.toNat ⌊chunk_duration * (sample_rate : ℚ)⌋

/-- Python `range(0, stop, step)` for a positive step: the multiples of
`step` below `stop`. -/
def pyRange (stop step : ℕ) : List ℕ :=
  (List.range ((stop + step - 1) / step)).map (fun k => k * step)

/-- The `(padded window, timestamp)` argument pairs `process_chunks` hands to
`_analyze_chunk`, one per loop iteration (audio_processor.py lines 38-50):
the slice `audio_data[i : i+chunk_samples]`, zero-padded to `chunk_samples`
when short, and the timestamp `i / sample_rate`. -/
def processChunksArgs (audio_data : List ℚ) (sample_rate chunk_samples : ℕ) :
    List (List ℚ × ℚ) :=
  (pyRange audio_data.length chunk_samples).map (fun i =>
    let chunk := (audio_data.drop i).take chunk_samples
    let padded :=
      if chunk.length < chunk_samples
      then chunk ++ List.replicate (chunk_samples - chunk.length) 0
      else chunk
    (padded, (i : ℚ) / (sample_rate : ℚ)))

/-- `AudioProcessor.process_chunks`, with the per-window feature extraction
(`_analyze_chunk`) abstracted as `extract`. -/
def process_chunks (extract : List ℚ → ℚ → AudioChunkData)
    (audio_data : List ℚ) (sample_rate chunk_samples : ℕ) : List AudioChunkData :=
  (processChunksArgs audio_data sample_rate chunk_samples).map
    (fun p => extract p.1 p.2)

/-- `total_chunks` as computed by `upload_audio` (main.py line 68):
`len(audio_data) // chunk_samples + (1 if len(audio_data) % chunk_samples else 0)`. -/
def total_chunks_calc (total_samples chunk_samples : ℕ) : ℕ :=
  total_samples / chunk_samples + (if total_samples % chunk_samples ≠ 0 then 1 else 0)

/-! ## Streaming queues and the production task (`main.py`) -/

/-- An item on a session queue: a feature record, an analysis message, the
`"END_OF_STREAM"` sentinel, or the raw error dict the production task
enqueues on failure. -/
inductive QItem where
  | chunk (c : AudioChunkData)
  | analysis (m : AudioAnalysisMessage)
  | eos
  | errorDict (message : String)
  deriving DecidableEq, Repr

/-- Is the item the end-of-stream sentinel? -/
def isEos : QItem → Bool
  | .eos => true
  | _ => false

/-- Is the item a feature record? -/
def isChunkItem : QItem → Bool
  | .chunk _ => true
  | _ => false

/-- Is the item an analysis message? -/
def isAnalysisItem : QItem → Bool
  | .analysis _ => true
  | _ => false

/-- State threaded through `_processing_task`'s loop: the session analyzer,
the permanent store `processed_audio_data[session_id]`, both queues (as
lists, enqueue at the tail), the local `chunk_counter`, and the session
status object. -/
structure ProdAcc where
  analyzer : AudioAnalyzer
  stored : List AudioChunkData
  chunkQ : List QItem
  analysisQ : List QItem
  counter : ℕ
  status : AudioProcessingStatus
  deriving DecidableEq, Repr

/-- The session state right after `upload_audio`: analyzer with window size
25 and empty buffers, empty store, empty queues, counter 0. -/
def initProdAcc (st : AudioProcessingStatus) : ProdAcc :=
  ⟨⟨25, [], []⟩, [], [], [], 0, st⟩

/-- One iteration of the `for chunk_data in chunk_generator` loop in
`_processing_task` (main.py lines 283-314): store the record, feed the
analyzer, enqueue the record, bump the counter, every 5th record enqueue an
analysis message when the analyzer produces one, and update
`processed_chunks` / `progress`. -/
def prodStep (sp : SciNum) (acc : ProdAcc) (chunk_data : AudioChunkData) : ProdAcc :=
  let analyzer := add_chunk acc.analyzer chunk_data
  let counter := acc.counter + 1
  let analysisQ :=
    if counter % 5 = 0 then
      match analyze_relationships sp analyzer with
      | some relationships =>
          acc.analysisQ ++
            [.analysis ⟨chunk_data, relationships, chunk_data.timestamp, counter⟩]
      | none => acc.analysisQ
    else acc.analysisQ
  { analyzer := analyzer
    stored := acc.stored ++ [chunk_data]
    chunkQ := acc.chunkQ ++ [.chunk chunk_data]
    analysisQ := analysisQ
    counter := counter
    status :=
      { acc.status with
        processed_chunks := acc.status.processed_chunks + 1
        progress := ((acc.status.processed_chunks + 1 : ℕ) : ℚ) /
          (acc.status.total_chunks : ℚ) } }

/-- The trailing analysis of `_processing_task` (main.py lines 320-334):
when the counter is not a multiple of 5, emit one final analysis message
built from the last stored record. -/
def prodFinalAnalysis (sp : SciNum) (acc : ProdAcc) : ProdAcc :=
  if acc.counter % 5 ≠ 0 then
    match analyze_relationships sp acc.analyzer with
    | some relationships =>
      if 0 < acc.counter then
        match acc.stored.getLast? with
        | some last_chunk =>
          { acc with
            analysisQ := acc.analysisQ ++
              [.analysis ⟨last_chunk, relationships, last_chunk.timestamp, acc.counter⟩] }
        | none => acc
      else acc
    | none => acc
  else acc

/-- `_processing_task` on the normal path, given the records the generator
yields: run the loop, do the final analysis, then place `"END_OF_STREAM"`
on both queues (main.py lines 336-338). -/
def processingTask (sp : SciNum) (records : List AudioChunkData)
    (st : AudioProcessingStatus) : ProdAcc :=
  let acc := prodFinalAnalysis sp (records.foldl (prodStep sp) (initProdAcc st))
  { acc with
    chunkQ := acc.chunkQ ++ [.eos]
    analysisQ := acc.analysisQ ++ [.eos] }

/-- The intermediate states of `_processing_task`'s loop: the state before
any record and after each record. -/
def processingStates (sp : SciNum) (records : List AudioChunkData)
    (st : AudioProcessingStatus) : List ProdAcc :=
  List.scanl (prodStep sp) (initProdAcc st) records

/-- `_processing_task` when the generator (or the extractor inside it)
raises after `k` records (main.py lines 347-350): the `except` branch puts
an error dict on both queues and leaves the status object untouched. -/
def processingTaskFailing (sp : SciNum) (records : List AudioChunkData) (k : ℕ)
    (message : String) (st : AudioProcessingStatus) : ProdAcc :=
  let acc := (records.take k).foldl (prodStep sp) (initProdAcc st)
  { acc with
    chunkQ := acc.chunkQ ++ [.errorDict message]
    analysisQ := acc.analysisQ ++ [.errorDict message] }

/-! ## Delivery protocol handler (`main.py`, `websocket_endpoint`) -/

/-- An outbound websocket message (`WebSocketMessage` by `type`). -/
inductive ServerMsg where
  | statusMsg (s : AudioProcessingStatus)
  | chunkData (c : AudioChunkData)
  | audioAnalysis (m : AudioAnalysisMessage)
  | errorMsg (message : String)
  deriving DecidableEq, Repr

/-- The effect of handling one inbound client message: messages sent, the
two queues afterwards, the status object afterwards, and whether the
receive loop breaks. -/
structure HandlerStep where
  sent : List ServerMsg
  chunkQ : List QItem
  analysisQ : List QItem
  status : AudioProcessingStatus
  breakLoop : Bool
  deriving DecidableEq, Repr

/-- The `get_nowait` consumer step shared by both queues (main.py lines
138-151 and 156-172): an empty queue raises `QueueEmpty` (here `none`); the
sentinel is taken and immediately re-enqueued at the tail. -/
def queueGetStep (q : List QItem) : Option QItem × List QItem :=
  match q with
  | [] => (none, [])
  | .eos :: rest => (some .eos, rest ++ [.eos])
  | item :: rest => (some item, rest)

/-- Dispatch on `message_json.get("action")` inside the `while True` loop of
`websocket_endpoint` (main.py lines 135-172).  Only `"get_chunk"` and
`"get_analysis"` have branches; any other action falls through to the next
loop iteration with nothing sent and nothing consumed.  Dequeuing the raw
error dict makes the python code call `.model_dump()` on a dict, so the
outer `except` sends an error message and the loop ends. -/
def handleClientAction (action : String) (st : AudioProcessingStatus)
    (chunkQ analysisQ : List QItem) : HandlerStep :=
  if action = "get_chunk" then
    match chunkQ with
    | [] => ⟨[], chunkQ, analysisQ, st, false⟩
    | .eos :: rest =>
      let st2 := { st with status := "completed" }
      ⟨[.statusMsg st2], rest ++ [.eos], analysisQ, st2, true⟩
    | .chunk c :: rest => ⟨[.chunkData c], rest, analysisQ, st, false⟩
    | .analysis m :: rest => ⟨[.audioAnalysis m], rest, analysisQ, st, false⟩
    | .errorDict e :: rest => ⟨[.errorMsg e], rest, analysisQ, st, true⟩
  else if action = "get_analysis" then
    match analysisQ with
    | [] => ⟨[], chunkQ, analysisQ, st, false⟩
    | .eos :: rest =>
      let st2 := { st with status := "completed" }
      ⟨[.statusMsg st2], chunkQ, rest ++ [.eos], st2, true⟩
    | .analysis m :: rest => ⟨[.audioAnalysis m, .statusMsg st], chunkQ, rest, st, false⟩
    | .chunk c :: rest => ⟨[.chunkData c], chunkQ, rest, st, false⟩
    | .errorDict e :: rest => ⟨[.errorMsg e], chunkQ, rest, st, true⟩
  else ⟨[], chunkQ, analysisQ, st, false⟩

/-- Outputs of repeatedly applying the consumer step `n` times to a queue. -/
def drainChunks : List QItem → ℕ → List QItem
  | _, 0 => []
  | q, n + 1 =>
    match queueGetStep q with
    | (none, _) => []
    | (some item, q2) => item :: drainChunks q2 n

/-- No feature record appears after the first end-of-stream sentinel. -/
def noChunkAfterEos : List QItem → Bool
  | [] => true
  | .eos :: rest => rest.all (fun item => !isChunkItem item)
  | _ :: rest => noChunkAfterEos rest

/-! ## Upload endpoint (`main.py`, `upload_audio`) -/

/-- `filename.lower().endswith('.mp3')`: lower-case the characters and test
the 4-character suffix. -/
def endsWithMp3 (filename : String) : Bool :=
  (filename.data.map Char.toLower).reverse.take 4 == ['3', 'p', 'm', '.']

/-- What the upload endpoint answers: the early `{"error": ...}` rejection,
the success payload, or the bare `None` the `except Exception: pass`
branch falls through to. -/
inductive UploadResponse where
  | errorDict (message : String)
  | payload (session_id : String) (file_info : AudioFileInfo) (total_chunks : ℕ)
  | noneResp
  deriving DecidableEq, Repr

/-- `upload_audio` (main.py lines 42-101).  The fallible steps inside the
`try` block — the file write, `audio_processor.load_audio`, and the
session-setup object constructions — are passed in as `Except` results;
`load_audio` yields the file info, the decoded sample count and the sample
rate.  The returned flag records whether the session was registered in
`current_sessions`.  A zero `chunk_samples` would make line 68 raise
`ZeroDivisionError`, also absorbed by the bare `except`. -/
def upload_audio (filename : String) (session_id : String)
    (writeResult : Except String Unit)
    (loadResult : Except String (AudioFileInfo × ℕ × ℕ))
    (setupResult : Except String Unit) : UploadResponse × Bool :=
  if ¬ endsWithMp3 filename then (.errorDict "Solo se permiten archivos MP3", false)
  else
    match writeResult with
    | .error _ => (.noneResp, false)
    | .ok _ =>
      match loadResult with
      | .error _ => (.noneResp, false)
      | .ok (file_info, audio_len, sample_rate) =>
        let chunk_samples := chunkSamplesOf (2 / 10) sample_rate
        if chunk_samples = 0 then (.noneResp, false)
        else
          let total_chunks := total_chunks_calc audio_len chunk_samples
          match setupResult with
          | .error _ => (.noneResp, false)
          | .ok _ => (.payload session_id file_info total_chunks, true)

/-! ## Concrete inputs used by witnesses -/

/-- A record whose amplitude, brightness and beat strength all equal `a`. -/
def scenChunk (a : ℚ) : AudioChunkData := ⟨0, [], a, a, 0, false, 0, 0, 0, [], a, 0⟩

/-- Scenario D of the spec: ten records with amplitude strictly increasing
from 0.1 to 0.9, brightness and beat strength following the amplitude. -/
def scenD : List AudioChunkData :=
  [scenChunk (9 / 90), scenChunk (17 / 90), scenChunk (25 / 90), scenChunk (33 / 90),
   scenChunk (41 / 90), scenChunk (49 / 90), scenChunk (57 / 90), scenChunk (65 / 90),
   scenChunk (73 / 90), scenChunk (81 / 90)]

/-- A three-record window with constant amplitude and beat strength 0.8 —
the window size the final analysis tick of a three-chunk file hands to the
prediction step. -/
def chunks3 : List AudioChunkData :=
  [scenChunk (8 / 10), scenChunk (8 / 10), scenChunk (8 / 10)]

/-- A concrete instantiation of the abstracted library calls. -/
def spW : SciNum := ⟨fun _ _ => [], fun _ _ => 0, fun _ => 0⟩

/-- A concrete feature extractor that stores the received timestamp. -/
def wExtract : List ℚ → ℚ → AudioChunkData :=
  fun _ t => { defaultChunk with timestamp := t }

/-- Five decoded samples. -/
def wAudio : List ℚ := [1, 2, 3, 4, 5]

/-- A status object as `upload_audio` builds it for `wAudio` with
`chunk_samples = 2` (3 total chunks). -/
def initW : AudioProcessingStatus := ⟨"processing", 0, 3, 0, 1⟩

/-- A record with timestamp 1 second. -/
def chunkW : AudioChunkData := { defaultChunk with timestamp := 1 }

/-- A two-record analyzer state. -/
def analyzerW : AudioAnalyzer :=
  ⟨25, [scenChunk 0, scenChunk (1 / 2)], [scenChunk 0, scenChunk (1 / 2)]⟩

/-- The empty composite report (used as the `Option.getD` fallback when
naming the report `analyze_relationships` yields on `analyzerW`). -/
def defaultRelationships : AudioRelationships :=
  ⟨default_transition_analysis, default_trend_analysis, ⟨[], 0, none, 0⟩,
   default_prediction_analysis, 0, 0⟩

/-- The report the analyzer produces on `analyzerW`. -/
def relW : AudioRelationships :=
  (analyze_relationships spW analyzerW).getD defaultRelationships

/-! ## The spec-side drop-probability formula (for the refinement in C8) -/

/-- `dropProbability` as the spec words it: a sum of three indicator
contributions, clamped to [0,1]. -/
def specDropProbability (chunks : List AudioChunkData) : ℚ :=
  npClip
    ((if meanQ ((lastN chunks 3).map (·.amplitude)) > 7 / 10 then 3 / 10 else 0)
      + (if meanQ ((lastN chunks 3).map (·.beat_strength)) > 6 / 10 then 3 / 10 else 0)
      + (if calculate_overall_energy_trend chunks > 2 / 10 then 4 / 10 else 0)) 0 1

/-! ## Helper lemmas -/

lemma npClip_le {x lo hi : ℚ} : npClip x lo hi ≤ hi := by
  unfold npClip
  exact min_le_right _ _

lemma le_npClip {x lo hi : ℚ} (h : lo ≤ hi) : lo ≤ npClip x lo hi :=
  le_min (le_max_right _ _) h

lemma calculate_trend_mem (x y : List ℚ) :
    -1 ≤ calculate_trend x y ∧ calculate_trend x y ≤ 1 := by
  unfold calculate_trend
  split
  · norm_num
  · dsimp only
    split
    · norm_num
    · exact ⟨le_npClip (by norm_num), npClip_le⟩

lemma calculate_trend_of_range_zero (x y : List ℚ) (h : maxQ y - minQ y = 0) :
    calculate_trend x y = 0 := by
  unfold calculate_trend
  split
  · rfl
  · simp [h]

lemma overall_energy_trend_mem (chunks : List AudioChunkData) :
    -1 ≤ calculate_overall_energy_trend chunks ∧
      calculate_overall_energy_trend chunks ≤ 1 := by
  unfold calculate_overall_energy_trend
  split
  · norm_num
  · exact calculate_trend_mem _ _

lemma smoothness_mem (chunks : List AudioChunkData) :
    0 ≤ calculate_transition_smoothness chunks ∧
      calculate_transition_smoothness chunks ≤ 1 := by
  unfold calculate_transition_smoothness
  split
  · norm_num
  · dsimp only
    split
    · norm_num
    · exact ⟨le_npClip (by norm_num), npClip_le⟩

lemma drop_probability_mem (chunks : List AudioChunkData) :
    0 ≤ calculate_drop_probability chunks ∧ calculate_drop_probability chunks ≤ 1 := by
  unfold calculate_drop_probability
  split
  · norm_num
  · exact ⟨le_npClip (by norm_num), npClip_le⟩

lemma buildup_probability_mem (chunks : List AudioChunkData) :
    0 ≤ calculate_buildup_probability chunks ∧
      calculate_buildup_probability chunks ≤ 1 := by
  unfold calculate_buildup_probability
  split
  · norm_num
  · exact ⟨le_npClip (by norm_num), npClip_le⟩

lemma break_probability_mem (chunks : List AudioChunkData) :
    0 ≤ calculate_break_probability chunks ∧ calculate_break_probability chunks ≤ 1 := by
  unfold calculate_break_probability
  split
  · norm_num
  · dsimp only
    split
    · exact ⟨le_npClip (by norm_num), npClip_le⟩
    · norm_num

lemma prodStep_chunkQ (sp : SciNum) (acc : ProdAcc) (c : AudioChunkData) :
    (prodStep sp acc c).chunkQ = acc.chunkQ ++ [QItem.chunk c] := rfl

lemma foldl_prodStep_chunkQ (sp : SciNum) (records : List AudioChunkData) :
    ∀ acc : ProdAcc,
      (records.foldl (prodStep sp) acc).chunkQ = acc.chunkQ ++ records.map QItem.chunk := by
  induction records with
  | nil => intro acc; simp
  | cons c t ih =>
    intro acc
    simp [List.foldl_cons, ih, prodStep_chunkQ, List.append_assoc]

lemma prodStep_analysisQ_all (sp : SciNum) (acc : ProdAcc) (c : AudioChunkData)
    (h : ∀ x ∈ acc.analysisQ, isAnalysisItem x = true) :
    ∀ x ∈ (prodStep sp acc c).analysisQ, isAnalysisItem x = true := by
  intro x hx
  unfold prodStep at hx
  dsimp only at hx
  split at hx
  · split at hx
    · rcases List.mem_append.mp hx with h1 | h1
      · exact h x h1
      · simp only [List.mem_singleton] at h1
        subst h1
        rfl
    · exact h x hx
  · exact h x hx

lemma foldl_prodStep_analysisQ_all (sp : SciNum) (records : List AudioChunkData) :
    ∀ acc : ProdAcc, (∀ x ∈ acc.analysisQ, isAnalysisItem x = true) →
      ∀ x ∈ (records.foldl (prodStep sp) acc).analysisQ, isAnalysisItem x = true := by
  induction records with
  | nil => intro acc h; simpa using h
  | cons c t ih =>
    intro acc h
    exact ih _ (prodStep_analysisQ_all sp acc c h)

lemma prodFinalAnalysis_chunkQ (sp : SciNum) (acc : ProdAcc) :
    (prodFinalAnalysis sp acc).chunkQ = acc.chunkQ := by
  unfold prodFinalAnalysis
  split
  · split
    · split
      · split
        · rfl
        · rfl
      · rfl
    · rfl
  · rfl

lemma prodFinalAnalysis_analysisQ_all (sp : SciNum) (acc : ProdAcc)
    (h : ∀ x ∈ acc.analysisQ, isAnalysisItem x = true) :
    ∀ x ∈ (prodFinalAnalysis sp acc).analysisQ, isAnalysisItem x = true := by
  intro x hx
  unfold prodFinalAnalysis at hx
  split at hx
  · split at hx
    · split at hx
      · split at hx
        · simp only at hx
          rcases List.mem_append.mp hx with h1 | h1
          · exact h x h1
          · simp only [List.mem_singleton] at h1
            subst h1
            rfl
        · exact h x hx
      · exact h x hx
    · exact h x hx
  · exact h x hx

lemma prodStep_status_status (sp : SciNum) (acc : ProdAcc) (c : AudioChunkData) :
    (prodStep sp acc c).status.status = acc.status.status := rfl

lemma prodStep_status_total (sp : SciNum) (acc : ProdAcc) (c : AudioChunkData) :
    (prodStep sp acc c).status.total_chunks = acc.status.total_chunks := rfl

lemma prodStep_status_processed (sp : SciNum) (acc : ProdAcc) (c : AudioChunkData) :
    (prodStep sp acc c).status.processed_chunks = acc.status.processed_chunks + 1 := rfl

lemma foldl_prodStep_status_status (sp : SciNum) (records : List AudioChunkData) :
    ∀ acc : ProdAcc,
      (records.foldl (prodStep sp) acc).status.status = acc.status.status := by
  induction records with
  | nil => intro acc; rfl
  | cons c t ih => intro acc; simpa [prodStep_status_status] using ih (prodStep sp acc c)

lemma scanl_prodStep_bounds (sp : SciNum) (records : List AudioChunkData) :
    ∀ acc : ProdAcc, ∀ b ∈ List.scanl (prodStep sp) acc records,
      b.status.processed_chunks ≤ acc.status.processed_chunks + records.length ∧
        b.status.total_chunks = acc.status.total_chunks := by
  induction records with
  | nil =>
    intro acc b hb
    simp only [List.scanl_nil, List.mem_singleton] at hb
    subst hb
    simp
  | cons c t ih =>
    intro acc b hb
    rw [List.scanl_cons] at hb
    rcases List.mem_cons.mp hb with h | h
    · subst h
      exact ⟨by omega, rfl⟩
    · rcases ih (prodStep sp acc c) b h with ⟨h1, h2⟩
      rw [prodStep_status_processed] at h1
      rw [prodStep_status_total] at h2
      refine ⟨?_, h2⟩
      simp only [List.length_cons]
      omega

lemma drainChunks_eos_only (n : ℕ) :
    drainChunks [QItem.eos] n = List.replicate n QItem.eos := by
  induction n with
  | zero => rfl
  | succ m ih => simp [drainChunks, queueGetStep, ih, List.replicate_succ]

lemma drainChunks_trace (l : List AudioChunkData) :
    ∀ n, drainChunks (l.map QItem.chunk ++ [QItem.eos]) n =
      (l.take n).map QItem.chunk ++ List.replicate (n - l.length) QItem.eos := by
  induction l with
  | nil => intro n; simpa using drainChunks_eos_only n
  | cons c t ih =>
    intro n
    cases n with
    | zero => simp [drainChunks]
    | succ m =>
      simp only [List.map_cons, List.cons_append, List.take_succ_cons, List.length_cons]
      rw [show drainChunks (QItem.chunk c :: (t.map QItem.chunk ++ [QItem.eos])) (m + 1) =
            QItem.chunk c :: drainChunks (t.map QItem.chunk ++ [QItem.eos]) m from rfl]
      rw [ih m]
      simp [Nat.succ_sub_succ]

lemma noChunkAfterEos_chunks_eos (l : List AudioChunkData) (m : ℕ) :
    noChunkAfterEos (l.map QItem.chunk ++ List.replicate m QItem.eos) = true := by
  induction l with
  | nil =>
    cases m with
    | zero => rfl
    | succ k =>
      show (List.replicate k QItem.eos).all (fun item => !isChunkItem item) = true
      rw [List.all_eq_true]
      intro x hx
      rw [List.eq_of_mem_replicate hx]
      rfl
  | cons c t ih =>
    simpa [noChunkAfterEos] using ih

lemma isEos_false_of_analysis {x : QItem} (h : isAnalysisItem x = true) :
    isEos x = false := by
  cases x <;> simp_all [isAnalysisItem, isEos]

lemma total_chunks_calc_eq_ceil (n w : ℕ) (hw : 0 < w) :
    total_chunks_calc n w = (n + w - 1) / w := by
  unfold total_chunks_calc
  by_cases h : n % w = 0
  · simp only [h, ne_eq, not_true_eq_false, if_false]
    obtain ⟨q, hq⟩ := Nat.dvd_of_mod_eq_zero h
    subst hq
    rw [Nat.mul_div_cancel_left _ hw]
    have h2 : w * q + w - 1 = w * q + (w - 1) := by omega
    rw [h2, Nat.mul_add_div hw, Nat.div_eq_of_lt (show w - 1 < w by omega)]
  · simp only [h, ne_eq, not_false_eq_true, if_true]
    have h1 : n % w < w := Nat.mod_lt _ hw
    have h2 : 0 < n % w := Nat.pos_of_ne_zero h
    have h0 := Nat.div_add_mod n w
    have hms : w * (n / w + 1) = w * (n / w) + w := Nat.mul_succ w (n / w)
    have h3 : n + w - 1 = w * (n / w + 1) + (n % w - 1) := by omega
    rw [h3, Nat.mul_add_div hw, Nat.div_eq_of_lt (show n % w - 1 < w by omega)]

lemma pyRange_length (stop step : ℕ) :
    (pyRange stop step).length = (stop + step - 1) / step := by
  simp [pyRange]

lemma process_chunks_length (extract : List ℚ → ℚ → AudioChunkData)
    (audio : List ℚ) (sr cs : ℕ) :
    (process_chunks extract audio sr cs).length = (audio.length + cs - 1) / cs := by
  simp [process_chunks, processChunksArgs, pyRange]

lemma pyRange_getElem (stop step idx : ℕ) (h : idx < (pyRange stop step).length) :
    (pyRange stop step)[idx] = idx * step := by
  unfold pyRange at h ⊢
  rw [List.getElem_map, List.getElem_range]

lemma processChunksArgs_getElem (audio : List ℚ) (sr cs idx : ℕ)
    (h : idx < (processChunksArgs audio sr cs).length) :
    (processChunksArgs audio sr cs)[idx] =
      ((audio.drop (idx * cs)).take cs ++
          List.replicate (cs - ((audio.drop (idx * cs)).take cs).length) (0 : ℚ),
        ((idx * cs : ℕ) : ℚ) / (sr : ℚ)) := by
  have hlen : idx < (pyRange audio.length cs).length := by
    simpa [processChunksArgs] using h
  unfold processChunksArgs
  rw [List.getElem_map, pyRange_getElem _ _ _ hlen]
  dsimp only
  split
  · rfl
  · rename_i hge
    have hle : ((audio.drop (idx * cs)).take cs).length = cs := by
      have := List.length_take cs (audio.drop (idx * cs))
      omega
    rw [hle]
    simp

lemma analyze_trends_mem (sp : SciNum) (window : List AudioChunkData) :
    (-1 ≤ (analyze_trends sp window).amplitude_trend ∧
        (analyze_trends sp window).amplitude_trend ≤ 1) ∧
      (-1 ≤ (analyze_trends sp window).brightness_trend ∧
        (analyze_trends sp window).brightness_trend ≤ 1) ∧
      (-1 ≤ (analyze_trends sp window).beat_strength_trend ∧
        (analyze_trends sp window).beat_strength_trend ≤ 1) ∧
      (∀ t ∈ (analyze_trends sp window).frequency_trends, -1 ≤ t ∧ t ≤ 1) ∧
      (-1 ≤ (analyze_trends sp window).overall_energy_trend ∧
        (analyze_trends sp window).overall_energy_trend ≤ 1) := by
  unfold analyze_trends
  split
  · refine ⟨by norm_num [default_trend_analysis], by norm_num [default_trend_analysis],
      by norm_num [default_trend_analysis], ?_, by norm_num [default_trend_analysis]⟩
    intro t ht
    simp only [default_trend_analysis] at ht
    rw [List.eq_of_mem_replicate ht]
    norm_num
  · refine ⟨calculate_trend_mem _ _, calculate_trend_mem _ _, calculate_trend_mem _ _,
      ?_, overall_energy_trend_mem _⟩
    intro t ht
    simp only [List.mem_map] at ht
    obtain ⟨i, _, rfl⟩ := ht
    exact calculate_trend_mem _ _

lemma analyze_transitions_smoothness_mem (window : List AudioChunkData) :
    0 ≤ (analyze_transitions window).transition_smoothness ∧
      (analyze_transitions window).transition_smoothness ≤ 1 := by
  unfold analyze_transitions
  split
  · norm_num [default_transition_analysis]
  · dsimp only
    split
    · norm_num [default_transition_analysis]
    · exact smoothness_mem _

lemma make_predictions_mem (window : List AudioChunkData) :
    (0 ≤ (make_predictions window).drop_probability ∧
        (make_predictions window).drop_probability ≤ 1) ∧
      (0 ≤ (make_predictions window).buildup_probability ∧
        (make_predictions window).buildup_probability ≤ 1) ∧
      (0 ≤ (make_predictions window).break_probability ∧
        (make_predictions window).break_probability ≤ 1) := by
  unfold make_predictions
  split
  · norm_num [default_prediction_analysis]
  · exact ⟨drop_probability_mem _, buildup_probability_mem _, break_probability_mem _⟩

lemma drop_probability_eq_spec (chunks : List AudioChunkData)
    (h : 5 ≤ chunks.length) :
    calculate_drop_probability chunks = specDropProbability chunks := by
  unfold calculate_drop_probability specDropProbability
  rw [if_neg (by omega)]
  dsimp only
  split_ifs <;> norm_num

lemma scenD_energy_trend : calculate_overall_energy_trend scenD = 1 := by
  unfold calculate_overall_energy_trend
  rw [if_neg (by norm_num [scenD])]
  dsimp only
  have hmap : List.map (fun c => (c.amplitude + c.brightness + c.beat_strength) / 3) scenD
      = [9 / 90, 17 / 90, 25 / 90, 33 / 90, 41 / 90,
         49 / 90, 57 / 90, 65 / 90, 73 / 90, 81 / 90] := by
    norm_num [scenD, scenChunk]
  rw [hmap]
  show calculate_trend (arange 10)
    [9 / 90, 17 / 90, 25 / 90, 33 / 90, 41 / 90,
     49 / 90, 57 / 90, 65 / 90, 73 / 90, 81 / 90] = 1
  have harange : arange 10 = [0, 1, 2, 3, 4, 5, 6, 7, 8, 9] := by
    norm_num [arange, List.range_succ]
  rw [harange]
  unfold calculate_trend
  rw [if_neg (by norm_num)]
  dsimp only
  have hrange : maxQ [9 / 90, 17 / 90, 25 / 90, 33 / 90, 41 / 90,
        49 / 90, 57 / 90, 65 / 90, 73 / 90, 81 / 90] -
      minQ [9 / 90, 17 / 90, 25 / 90, 33 / 90, 41 / 90,
        49 / 90, 57 / 90, 65 / 90, 73 / 90, 81 / 90] = 4 / 5 := by
    norm_num [maxQ, minQ, max_def, min_def]
  rw [hrange]
  rw [if_neg (by norm_num)]
  have hslope : linregressSlope [0, 1, 2, 3, 4, 5, 6, 7, 8, 9]
      [9 / 90, 17 / 90, 25 / 90, 33 / 90, 41 / 90,
       49 / 90, 57 / 90, 65 / 90, 73 / 90, 81 / 90] = 4 / 45 := by
    norm_num [linregressSlope]
  rw [hslope]
  norm_num [npClip, max_def, min_def]

lemma scenD_drop_value : calculate_drop_probability scenD = 1 := by
  rw [drop_probability_eq_spec scenD (by norm_num [scenD])]
  unfold specDropProbability
  have hlast : lastN scenD 3 =
      [scenChunk (65 / 90), scenChunk (73 / 90), scenChunk (81 / 90)] := rfl
  rw [hlast]
  have hamp : meanQ (List.map (fun c => c.amplitude)
      [scenChunk (65 / 90), scenChunk (73 / 90), scenChunk (81 / 90)]) = 73 / 90 := by
    norm_num [meanQ, scenChunk]
  have hbeat : meanQ (List.map (fun c => c.beat_strength)
      [scenChunk (65 / 90), scenChunk (73 / 90), scenChunk (81 / 90)]) = 73 / 90 := by
    norm_num [meanQ, scenChunk]
  rw [hamp, hbeat, scenD_energy_trend]
  norm_num [npClip, max_def, min_def]

lemma chunks3_spec_value : specDropProbability chunks3 = 6 / 10 := by
  unfold specDropProbability
  have hlast : lastN chunks3 3 = chunks3 := rfl
  rw [hlast]
  have hamp : meanQ (List.map (fun c => c.amplitude) chunks3) = 8 / 10 := by
    norm_num [chunks3, meanQ, scenChunk]
  have hbeat : meanQ (List.map (fun c => c.beat_strength) chunks3) = 8 / 10 := by
    norm_num [chunks3, meanQ, scenChunk]
  have htrend : calculate_overall_energy_trend chunks3 = 0 := by
    unfold calculate_overall_energy_trend
    rw [if_neg (by norm_num [chunks3])]
    dsimp only
    have hmap : List.map (fun c => (c.amplitude + c.brightness + c.beat_strength) / 3)
        chunks3 = [8 / 10, 8 / 10, 8 / 10] := by
      norm_num [chunks3, scenChunk]
    rw [hmap]
    apply calculate_trend_of_range_zero
    norm_num [maxQ, minQ, max_def, min_def]
  rw [hamp, hbeat, htrend]
  norm_num [npClip, max_def, min_def]

/-! ## Claim theorems -/

/-- Claim C1 (code bug): the `AudioChunkData(...)` call in
`AudioProcessor._analyze_chunk` fails pydantic validation on every sample
window — exactly the required fields `spectral_flatness`, `chroma_features`,
`beat_strength` and `tempo` of the data model are absent from the call, so
the per-window extraction step never returns a well-formed record of the
declared record type. -/
theorem analyze_chunk_misses_required_fields :
    pydanticConstructOk audioChunkDataRequiredFields analyzeChunkKwargNames = false ∧
      audioChunkDataRequiredFields.filter
          (fun f => !(analyzeChunkKwargNames.contains f)) =
        ["spectral_flatness", "chroma_features", "beat_strength", "tempo"] := by
  exact ⟨by decide, by decide⟩

/-- Claim C2 counterexample: a `get_chunks_for_time` request (here at
`current_time = 0`, default `buffer_ahead = 3`) gets no response at all —
nothing is sent and the queues are untouched — even though a feature record
with timestamp inside `[0, 0 + 3]` is available. -/
theorem get_chunks_for_time_not_served :
    (handleClientAction "get_chunks_for_time" initW [QItem.chunk chunkW] []).sent = [] ∧
      (handleClientAction "get_chunks_for_time" initW [QItem.chunk chunkW] []).chunkQ =
        [QItem.chunk chunkW] ∧
      (0 : ℚ) ≤ chunkW.timestamp ∧ chunkW.timestamp ≤ 0 + 3 := by
  refine ⟨rfl, rfl, by norm_num [chunkW, defaultChunk], by norm_num [chunkW, defaultChunk]⟩

/-- Claim C2 amended: the connection handler recognizes only the actions
`get_chunk` and `get_analysis`; any other action — in particular
`get_chunks_for_time` and `get_analysis_for_time` — is ignored: nothing is
sent, both queues and the status are unchanged, and the receive loop simply
continues. -/
theorem unrecognized_actions_ignored (action : String) (st : AudioProcessingStatus)
    (chunkQ analysisQ : List QItem)
    (h1 : action ≠ "get_chunk") (h2 : action ≠ "get_analysis") :
    handleClientAction action st chunkQ analysisQ = ⟨[], chunkQ, analysisQ, st, false⟩ := by
  unfold handleClientAction
  rw [if_neg h1, if_neg h2]

/-- Witness for the amended C2 at the concrete action
`get_analysis_for_time`. -/
theorem unrecognized_actions_ignored_witness :
    handleClientAction "get_analysis_for_time" initW [QItem.chunk chunkW] [] =
      ⟨[], [QItem.chunk chunkW], [], initW, false⟩ :=
  unrecognized_actions_ignored "get_analysis_for_time" initW [QItem.chunk chunkW] []
    (by decide) (by decide)

/-- Claim C3 counterexample: when production fails immediately (message
"boom") on a session whose status string is "processing", the task enqueues
error payloads on both queues but returns the status object unchanged —
still "processing", never Failed. -/
theorem production_error_status_unchanged :
    (processingTaskFailing spW [] 0 "boom" initW).status = initW ∧
      initW.status = "processing" ∧
      (processingTaskFailing spW [] 0 "boom" initW).chunkQ = [QItem.errorDict "boom"] ∧
      (processingTaskFailing spW [] 0 "boom" initW).analysisQ = [QItem.errorDict "boom"] :=
  ⟨rfl, rfl, rfl, rfl⟩

/-- Claim C3 amended: whenever the generator raises inside the production
task (after any number of records), the `except` branch appends an error
payload to both queues as its last enqueue, never enqueues the
end-of-stream marker, and leaves the session status string untouched — the
status is not transitioned to Failed. -/
theorem production_error_behaviour (sp : SciNum) (records : List AudioChunkData)
    (k : ℕ) (message : String) (st : AudioProcessingStatus) :
    (processingTaskFailing sp records k message st).status.status = st.status ∧
      (processingTaskFailing sp records k message st).chunkQ.getLast? =
        some (QItem.errorDict message) ∧
      (processingTaskFailing sp records k message st).analysisQ.getLast? =
        some (QItem.errorDict message) ∧
      List.countP isEos (processingTaskFailing sp records k message st).chunkQ = 0 ∧
      List.countP isEos (processingTaskFailing sp records k message st).analysisQ = 0 := by
  unfold processingTaskFailing
  refine ⟨?_, ?_, ?_, ?_, ?_⟩
  · exact foldl_prodStep_status_status sp _ (initProdAcc st)
  · exact List.getLast?_concat _
  · exact List.getLast?_concat _
  · rw [List.countP_append, foldl_prodStep_chunkQ]
    have h1 : List.countP isEos ((initProdAcc st).chunkQ ++
        (records.take k).map QItem.chunk) = 0 := by
      rw [List.countP_eq_zero]
      intro a ha
      rcases List.mem_append.mp ha with h | h
      · simp [initProdAcc] at h
      · obtain ⟨c, _, rfl⟩ := List.mem_map.mp h
        simp [isEos]
    rw [h1]
    rfl
  · rw [List.countP_append]
    have h1 : List.countP isEos
        (((records.take k).foldl (prodStep sp) (initProdAcc st)).analysisQ) = 0 := by
      rw [List.countP_eq_zero]
      intro a ha
      have h2 := foldl_prodStep_analysisQ_all sp (records.take k) (initProdAcc st)
        (by intro x hx; simp [initProdAcc] at hx) a ha
      simp [isEos_false_of_analysis h2]
    rw [h1]
    rfl

/-- Claim C4: on normal completion the producer's chunk-queue trace is the
records followed by exactly one end-of-stream marker and the analysis-queue
trace is analysis messages followed by exactly one marker — the marker being
the producer's last enqueue on each queue; moreover the consumer step
re-enqueues a dequeued marker, and repeatedly draining the chunk queue never
yields a record after the marker. -/
theorem eos_marker_discipline (sp : SciNum) (records : List AudioChunkData)
    (st : AudioProcessingStatus) :
    (processingTask sp records st).chunkQ = records.map QItem.chunk ++ [QItem.eos] ∧
      List.countP isEos (processingTask sp records st).chunkQ = 1 ∧
      (∃ A, (processingTask sp records st).analysisQ = A ++ [QItem.eos] ∧
        (∀ x ∈ A, isAnalysisItem x = true) ∧
        List.countP isEos (processingTask sp records st).analysisQ = 1) ∧
      (∀ rest : List QItem,
        queueGetStep (QItem.eos :: rest) = (some QItem.eos, rest ++ [QItem.eos])) ∧
      (∀ n, noChunkAfterEos
        (drainChunks (records.map QItem.chunk ++ [QItem.eos]) n) = true) := by
  have hchunk : (processingTask sp records st).chunkQ =
      records.map QItem.chunk ++ [QItem.eos] := by
    unfold processingTask
    dsimp only
    rw [prodFinalAnalysis_chunkQ, foldl_prodStep_chunkQ]
    simp [initProdAcc]
  have hallA : ∀ x ∈ (prodFinalAnalysis sp
      (records.foldl (prodStep sp) (initProdAcc st))).analysisQ,
      isAnalysisItem x = true := by
    apply prodFinalAnalysis_analysisQ_all
    apply foldl_prodStep_analysisQ_all
    intro x hx
    simp [initProdAcc] at hx
  refine ⟨hchunk, ?_, ?_, ?_, ?_⟩
  · rw [hchunk, List.countP_append]
    have h1 : List.countP isEos (records.map QItem.chunk) = 0 := by
      rw [List.countP_eq_zero]
      intro a ha
      obtain ⟨c, _, rfl⟩ := List.mem_map.mp ha
      simp [isEos]
    rw [h1]
    rfl
  · refine ⟨(prodFinalAnalysis sp
      (records.foldl (prodStep sp) (initProdAcc st))).analysisQ, rfl, hallA, ?_⟩
    show List.countP isEos (_ ++ [QItem.eos]) = 1
    rw [List.countP_append]
    have h1 : List.countP isEos (prodFinalAnalysis sp
        (records.foldl (prodStep sp) (initProdAcc st))).analysisQ = 0 := by
      rw [List.countP_eq_zero]
      intro a ha
      simp [isEos_false_of_analysis (hallA a ha)]
    rw [h1]
    rfl
  · intro rest
    rfl
  · intro n
    rw [drainChunks_trace]
    exact noChunkAfterEos_chunks_eos _ _

/-- Claim C5: the `totalChunks` computed at upload equals
`⌈totalSamples / windowSamples⌉`, the chunk sequencer yields exactly that
many records, and `processedChunks` never exceeds `totalChunks` in any state
of the production loop. -/
theorem total_chunks_invariant (w : ℕ) (hw : 0 < w) (audio : List ℚ) (sr : ℕ)
    (extract : List ℚ → ℚ → AudioChunkData) (sp : SciNum)
    (st : AudioProcessingStatus) (hp : st.processed_chunks = 0)
    (ht : st.total_chunks = total_chunks_calc audio.length w) :
    total_chunks_calc audio.length w = (audio.length + w - 1) / w ∧
      (process_chunks extract audio sr w).length = total_chunks_calc audio.length w ∧
      ∀ acc ∈ processingStates sp (process_chunks extract audio sr w) st,
        acc.status.processed_chunks ≤ acc.status.total_chunks := by
  have hlen : (process_chunks extract audio sr w).length =
      total_chunks_calc audio.length w := by
    rw [process_chunks_length, total_chunks_calc_eq_ceil _ _ hw]
  refine ⟨total_chunks_calc_eq_ceil _ _ hw, hlen, ?_⟩
  intro acc hacc
  have hb := scanl_prodStep_bounds sp _ (initProdAcc st) acc hacc
  rcases hb with ⟨h1, h2⟩
  have h3 : (initProdAcc st).status = st := rfl
  rw [h3] at h1 h2
  rw [h2, ht]
  rw [hp, hlen] at h1
  omega

/-- Witness for C5 on five samples, window 2 (3 chunks). -/
theorem total_chunks_invariant_witness :
    total_chunks_calc wAudio.length 2 = (wAudio.length + 2 - 1) / 2 ∧
      (process_chunks wExtract wAudio 10 2).length = total_chunks_calc wAudio.length 2 ∧
      ∀ acc ∈ processingStates spW (process_chunks wExtract wAudio 10 2) initW,
        acc.status.processed_chunks ≤ acc.status.total_chunks :=
  total_chunks_invariant 2 (by decide) wAudio 10 wExtract spW initW rfl (by decide)

/-- Claim C6: window `i` of the chunk sequencer carries timestamp
`i * windowSamples / sampleRate`; the window is the corresponding sample
slice zero-padded to the full nominal length (`windowSamples` samples), and
the timestamp is computed from the window index alone, independent of the
padding — so padding a short final window does not change its reported
timestamp. -/
theorem chunk_timestamps_and_padding (audio : List ℚ) (sr cs idx : ℕ)
    (h : idx < (processChunksArgs audio sr cs).length) :
    ((processChunksArgs audio sr cs).get ⟨idx, h⟩).2 = ((idx * cs : ℕ) : ℚ) / (sr : ℚ) ∧
      ((processChunksArgs audio sr cs).get ⟨idx, h⟩).1 =
        (audio.drop (idx * cs)).take cs ++
          List.replicate (cs - ((audio.drop (idx * cs)).take cs).length) (0 : ℚ) ∧
      ((processChunksArgs audio sr cs).get ⟨idx, h⟩).1.length = cs ∧
      ∀ extract : List ℚ → ℚ → AudioChunkData,
        (∀ c t, (extract c t).timestamp = t) →
        ∀ h2 : idx < (process_chunks extract audio sr cs).length,
          ((process_chunks extract audio sr cs).get ⟨idx, h2⟩).timestamp =
            ((idx * cs : ℕ) : ℚ) / (sr : ℚ) := by
  have hg : (processChunksArgs audio sr cs)[idx] =
      ((audio.drop (idx * cs)).take cs ++
          List.replicate (cs - ((audio.drop (idx * cs)).take cs).length) (0 : ℚ),
        ((idx * cs : ℕ) : ℚ) / (sr : ℚ)) := processChunksArgs_getElem audio sr cs idx h
  have hget : (processChunksArgs audio sr cs).get ⟨idx, h⟩ =
      (processChunksArgs audio sr cs)[idx] := rfl
  refine ⟨by rw [hget, hg], by rw [hget, hg], ?_, ?_⟩
  · rw [hget, hg]
    have hle : ((audio.drop (idx * cs)).take cs).length ≤ cs := by
      have := List.length_take cs (audio.drop (idx * cs))
      omega
    simp only [List.length_append, List.length_replicate]
    omega
  · intro extract hext h2
    have h3 : ((process_chunks extract audio sr cs).get ⟨idx, h2⟩) =
        extract ((processChunksArgs audio sr cs)[idx]).1
          ((processChunksArgs audio sr cs)[idx]).2 := by
      show (process_chunks extract audio sr cs)[idx] = _
      unfold process_chunks
      rw [List.getElem_map]
    rw [h3, hext, hg]

/-- Witness for C6 on five samples, window 2, sample rate 2: the third
window is the padded slice `[5, 0]` with timestamp `4 / 2 = 2`. -/
theorem chunk_timestamps_and_padding_witness :
    ((processChunksArgs wAudio 2 2).get ⟨2, by decide⟩).2 = ((2 * 2 : ℕ) : ℚ) / (2 : ℚ) ∧
      ((processChunksArgs wAudio 2 2).get ⟨2, by decide⟩).1 =
        (wAudio.drop (2 * 2)).take 2 ++
          List.replicate (2 - ((wAudio.drop (2 * 2)).take 2).length) (0 : ℚ) ∧
      ((processChunksArgs wAudio 2 2).get ⟨2, by decide⟩).1.length = 2 ∧
      ∀ extract : List ℚ → ℚ → AudioChunkData,
        (∀ c t, (extract c t).timestamp = t) →
        ∀ h2 : 2 < (process_chunks extract wAudio 2 2).length,
          ((process_chunks extract wAudio 2 2).get ⟨2, h2⟩).timestamp =
            ((2 * 2 : ℕ) : ℚ) / (2 : ℚ) :=
  chunk_timestamps_and_padding wAudio 2 2 2 (by decide)

/-- Claim C7: in every composite report the analyzer emits, the per-series
trends and the overall energy trend lie in [−1, 1] (and the trend of a
series with value range 0 is 0), the three event probabilities lie in
[0, 1], and the transition smoothness lies in [0, 1]. -/
theorem report_value_ranges (sp : SciNum) (a : AudioAnalyzer)
    (rel : AudioRelationships) (h : analyze_relationships sp a = some rel) :
    (-1 ≤ rel.trends.amplitude_trend ∧ rel.trends.amplitude_trend ≤ 1) ∧
      (-1 ≤ rel.trends.brightness_trend ∧ rel.trends.brightness_trend ≤ 1) ∧
      (-1 ≤ rel.trends.beat_strength_trend ∧ rel.trends.beat_strength_trend ≤ 1) ∧
      (∀ t ∈ rel.trends.frequency_trends, -1 ≤ t ∧ t ≤ 1) ∧
      (-1 ≤ rel.trends.overall_energy_trend ∧ rel.trends.overall_energy_trend ≤ 1) ∧
      (∀ x y : List ℚ, maxQ y - minQ y = 0 → calculate_trend x y = 0) ∧
      (0 ≤ rel.transitions.transition_smoothness ∧
        rel.transitions.transition_smoothness ≤ 1) ∧
      (0 ≤ rel.predictions.drop_probability ∧ rel.predictions.drop_probability ≤ 1) ∧
      (0 ≤ rel.predictions.buildup_probability ∧
        rel.predictions.buildup_probability ≤ 1) ∧
      (0 ≤ rel.predictions.break_probability ∧ rel.predictions.break_probability ≤ 1) := by
  unfold analyze_relationships at h
  split at h
  · exact absurd h (by simp)
  · rw [Option.some_inj] at h
    subst h
    obtain ⟨ht1, ht2, ht3, ht4, ht5⟩ := analyze_trends_mem sp a.window_buffer
    obtain ⟨hp1, hp2, hp3⟩ := make_predictions_mem a.window_buffer
    exact ⟨ht1, ht2, ht3, ht4, ht5, calculate_trend_of_range_zero,
      analyze_transitions_smoothness_mem _, hp1, hp2, hp3⟩

/-- Witness for C7 on a concrete two-record analyzer state. -/
theorem report_value_ranges_witness :
    (-1 ≤ relW.trends.amplitude_trend ∧ relW.trends.amplitude_trend ≤ 1) ∧
      (-1 ≤ relW.trends.brightness_trend ∧ relW.trends.brightness_trend ≤ 1) ∧
      (-1 ≤ relW.trends.beat_strength_trend ∧ relW.trends.beat_strength_trend ≤ 1) ∧
      (∀ t ∈ relW.trends.frequency_trends, -1 ≤ t ∧ t ≤ 1) ∧
      (-1 ≤ relW.trends.overall_energy_trend ∧ relW.trends.overall_energy_trend ≤ 1) ∧
      (∀ x y : List ℚ, maxQ y - minQ y = 0 → calculate_trend x y = 0) ∧
      (0 ≤ relW.transitions.transition_smoothness ∧
        relW.transitions.transition_smoothness ≤ 1) ∧
      (0 ≤ relW.predictions.drop_probability ∧ relW.predictions.drop_probability ≤ 1) ∧
      (0 ≤ relW.predictions.buildup_probability ∧
        relW.predictions.buildup_probability ≤ 1) ∧
      (0 ≤ relW.predictions.break_probability ∧ relW.predictions.break_probability ≤ 1) :=
  report_value_ranges spW analyzerW relW rfl

/-- Claim C8 counterexample: on a three-record window with constant
amplitude and beat strength 0.8 — a window size the final analysis tick
hands to the prediction step — the claimed indicator sum is 0.6, but
`_calculate_drop_probability` returns 0 because of its `len(chunks) < 5`
guard, so `dropProbability` does not equal the clamped indicator sum on
every window. -/
theorem drop_probability_small_window_zero :
    calculate_drop_probability chunks3 = 0 ∧
      specDropProbability chunks3 = 6 / 10 ∧
      chunks3.length = 3 ∧
      (make_predictions chunks3).drop_probability = 0 :=
  ⟨rfl, chunks3_spec_value, rfl, rfl⟩

/-- Claim C8 amended: `dropProbability` equals the clamped sum of the three
indicator contributions (0.3 for mean amplitude of the last 3 above 0.7,
0.3 for mean beat strength of the last 3 above 0.6, 0.4 for overall energy
trend above 0.2) for windows of at least 5 records, and equals 0 for
smaller windows regardless of the indicators; on the scenario-D window of
ten records increasing from 0.1 to 0.9 with high beat strength in the last
three, all three contributions combine and the result exceeds 0.5. -/
theorem drop_probability_gated_formula (chunks : List AudioChunkData) :
    calculate_drop_probability chunks =
        (if chunks.length < 5 then 0 else specDropProbability chunks) ∧
      1 / 2 < calculate_drop_probability scenD := by
  constructor
  · by_cases h : chunks.length < 5
    · rw [if_pos h]
      unfold calculate_drop_probability
      rw [if_pos h]
    · rw [if_neg h]
      exact drop_probability_eq_spec chunks (by omega)
  · rw [scenD_drop_value]
    norm_num

/-- Claim C9: with fewer than 16 records in the full history, cyclic-pattern
detection returns the empty pattern list and the pattern report is the
trivial one (strength 0, no cycle length, confidence 0); conversely a
non-empty detection result can only arise from a history of at least 16
records — whatever the peak finder does. -/
theorem pattern_detection_needs_16 (sp : SciNum) (full_buffer : List AudioChunkData)
    (h : full_buffer.length < 16) :
    detect_cyclic_patterns sp full_buffer = [] ∧
      analyze_patterns sp full_buffer = ⟨[], 0, none, 0⟩ ∧
      ∀ (sp2 : SciNum) (buf2 : List AudioChunkData),
        detect_cyclic_patterns sp2 buf2 ≠ [] → 16 ≤ buf2.length := by
  have hdet : ∀ (s : SciNum) (b : List AudioChunkData), b.length < 16 →
      detect_cyclic_patterns s b = [] := by
    intro s b hb
    unfold detect_cyclic_patterns
    rw [if_pos hb]
  refine ⟨hdet sp _ h, ?_, ?_⟩
  · unfold analyze_patterns
    by_cases h8 : full_buffer.length < 8
    · rw [if_pos h8]
    · rw [if_neg h8]
      have hd := hdet sp full_buffer h
      simp [calculate_pattern_strength, find_dominant_cycle_length,
        calculate_pattern_confidence, hd]
  · intro sp2 buf2 hne
    by_contra hlt
    push_neg at hlt
    exact hne (hdet sp2 buf2 hlt)

/-- Witness for C9 on the empty history. -/
theorem pattern_detection_needs_16_witness :
    detect_cyclic_patterns spW [] = [] ∧
      analyze_patterns spW [] = ⟨[], 0, none, 0⟩ ∧
      ∀ (sp2 : SciNum) (buf2 : List AudioChunkData),
        detect_cyclic_patterns sp2 buf2 ≠ [] → 16 ≤ buf2.length :=
  pattern_detection_needs_16 spW [] (by decide)

/-- Claim C10: once an MP3 upload is accepted, a failure in any fallible
step of the `try` block (file write, audio decode, or session setup)
is swallowed by the bare `except`: the endpoint returns no payload at all —
neither a success payload nor an error message — and no session is
registered. -/
theorem upload_failure_swallowed (filename session_id : String)
    (writeResult : Except String Unit)
    (loadResult : Except String (AudioFileInfo × ℕ × ℕ))
    (setupResult : Except String Unit)
    (hmp3 : endsWithMp3 filename = true)
    (hfail : (∃ e, writeResult = .error e) ∨ (∃ e, loadResult = .error e) ∨
      (∃ e, setupResult = .error e)) :
    (upload_audio filename session_id writeResult loadResult setupResult).1 =
        UploadResponse.noneResp ∧
      (upload_audio filename session_id writeResult loadResult setupResult).2 = false := by
  unfold upload_audio
  rw [if_neg (by simp [hmp3])]
  rcases writeResult with e | u
  · exact ⟨rfl, rfl⟩
  · rcases loadResult with e | ⟨info, alen, srate⟩
    · exact ⟨rfl, rfl⟩
    · dsimp only
      by_cases hz : chunkSamplesOf (2 / 10) srate = 0
      · rw [if_pos hz]
        exact ⟨rfl, rfl⟩
      · rw [if_neg hz]
        rcases setupResult with e | u2
        · exact ⟨rfl, rfl⟩
        · exfalso
          rcases hfail with ⟨e, he⟩ | ⟨e, he⟩ | ⟨e, he⟩ <;> simp_all

/-- Witness for C10: a failing file write after accepting `song.mp3`. -/
theorem upload_failure_swallowed_witness :
    (upload_audio "song.mp3" "sid" (Except.error "disk full")
        (Except.ok (⟨"song.mp3", 1, 44100, 2, "p"⟩, 5, 44100)) (Except.ok ())).1 =
        UploadResponse.noneResp ∧
      (upload_audio "song.mp3" "sid" (Except.error "disk full")
        (Except.ok (⟨"song.mp3", 1, 44100, 2, "p"⟩, 5, 44100)) (Except.ok ())).2 = false :=
  upload_failure_swallowed "song.mp3" "sid" (Except.error "disk full")
    (Except.ok (⟨"song.mp3", 1, 44100, 2, "p"⟩, 5, 44100)) (Except.ok ())
    (by decide) (Or.inl ⟨"disk full", rfl⟩)

end SynchroNice
